import Mathlib

/-!
Shallow embedding of the scheduling core of the quiet-block scheduler
repository: the interval-overlap checker (`src/lib/utils/timeValidation.ts`),
the conflict query and update logic of
`src/lib/services/quietBlockService.ts`, the Mongoose pre-save hook of
`src/models/QuietBlock.ts`, the reminder cron handler of
`src/app/api/cron/send-reminders/route-backup.ts`, and the client-side form
validation (`handleFormSubmit`).

Conventions: JavaScript `Date` values are embedded as `Int` milliseconds
since the epoch (JS `<`, `>=`, `getTime()` arithmetic all reduce to this).
Mongo document ids and user ids are embedded as `Nat`.  Fields of the
documents that none of the verified properties read (description, tags,
priority, location, notes, ...) are omitted from the record types.
-/

namespace QuietScheduler

/-- Lifecycle status of a quiet block (`QuietBlockStatus` enum in
`src/models/QuietBlock.ts`). -/
inductive QuietBlockStatus
  | scheduled
  | active
  | completed
  | cancelled
  deriving DecidableEq, Repr

/-- Reminder sub-record of a quiet block (`reminderConfig` in the schema).
`minutesBefore` is `Option Int` because the field may be absent on a raw
document; JS reads it through `?.`. -/
structure ReminderConfig where
  enabled : Bool
  minutesBefore : Option Int
  emailEnabled : Bool
  pushEnabled : Bool
  deriving DecidableEq, Repr

/-- The populated `userId` document as read by the cron handler
(`user.email`, `user.name`, `user.preferences`). -/
structure UserInfo where
  email : String
  name : String
  notificationEmail : Option String
  reminderMinutesBefore : Option Int
  deriving DecidableEq, Repr

/-- A quiet-block document (`IQuietBlock` in `src/models/QuietBlock.ts`),
restricted to the fields the verified code paths read.  `user` models the
(possibly missing) populated `userId` reference. -/
structure QuietBlock where
  id : Nat
  supabaseUserId : Nat
  title : String
  startTime : Int
  endTime : Int
  status : QuietBlockStatus
  reminderConfig : Option ReminderConfig
  reminderSent : Bool
  reminderScheduledAt : Option Int
  isDeleted : Bool
  user : Option UserInfo
  deriving DecidableEq, Repr

/-- `TimeSlot` from `src/lib/utils/timeValidation.ts`. -/
structure TimeSlot where
  startTime : Int
  endTime : Int
  deriving DecidableEq, Repr

/-- `OverlapCheckResult` from `src/lib/utils/timeValidation.ts`. -/
structure OverlapCheckResult where
  hasOverlap : Bool
  conflictingBlocks : List QuietBlock
  message : Option String
  deriving DecidableEq, Repr

/-- `doTimeSlotsOverlap` from `src/lib/utils/timeValidation.ts`:
`slot1.startTime < slot2.endTime && slot2.startTime < slot1.endTime`. -/
def doTimeSlotsOverlap (slot1 slot2 : TimeSlot) : Bool :=
  slot1.startTime < slot2.endTime && slot2.startTime < slot1.endTime

/-- The `for` loop of `checkQuietBlockOverlap`: skip the excluded block,
skip soft-deleted blocks, and push every remaining block that overlaps the
candidate, in input order. -/
def collectConflicts (newBlock : TimeSlot) (excludeBlockId : Option Nat) :
    List QuietBlock → List QuietBlock
  | [] => []
  | existingBlock :: rest =>
    if excludeBlockId = some existingBlock.id then
      collectConflicts newBlock excludeBlockId rest
    else if existingBlock.isDeleted then
      collectConflicts newBlock excludeBlockId rest
    else if doTimeSlotsOverlap newBlock
        { startTime := existingBlock.startTime, endTime := existingBlock.endTime } then
      existingBlock :: collectConflicts newBlock excludeBlockId rest
    else
      collectConflicts newBlock excludeBlockId rest

/-- Title shown in the conflict message (`block.title || 'Untitled'`). -/
def displayTitle (block : QuietBlock) : String :=
  if block.title = "" then "Untitled" else block.title

/-- `checkQuietBlockOverlap` from `src/lib/utils/timeValidation.ts`. -/
def checkQuietBlockOverlap (newBlock : TimeSlot) (existingBlocks : List QuietBlock)
    (excludeBlockId : Option Nat) : OverlapCheckResult :=
  let conflictingBlocks := collectConflicts newBlock excludeBlockId existingBlocks
  let hasOverlap := conflictingBlocks.length > 0
  let message :=
    if hasOverlap then
      some ("Time conflict with existing quiet block"
        ++ (if conflictingBlocks.length > 1 then "s" else "")
        ++ ": "
        ++ String.intercalate ", " (conflictingBlocks.map displayTitle))
    else none
  { hasOverlap := hasOverlap
    conflictingBlocks := conflictingBlocks
    message := message }

/-- `15 * 60 * 1000` from `validateTimeSlot`. -/
def minDurationMs : Int := 15 * 60 * 1000

/-- `8 * 60 * 60 * 1000` from `validateTimeSlot`. -/
def maxDurationMs : Int := 8 * 60 * 60 * 1000

/-- The four failing branches of `validateTimeSlot`, one per distinct
`message` string returned by the source (see `timeSlotErrorMessage`). -/
inductive TimeSlotError
  | invalidRange
  | pastEnd
  | tooShort
  | tooLong
  deriving DecidableEq, Repr

/-- The exact `message` string each `validateTimeSlot` branch returns. -/
def timeSlotErrorMessage : TimeSlotError → String
  | .invalidRange => "Start time must be before end time"
  | .pastEnd => "End time cannot be in the past"
  | .tooShort => "Quiet block must be at least 15 minutes long"
  | .tooLong => "Quiet block cannot be longer than 8 hours"

/-- `validateTimeSlot` from `src/lib/utils/timeValidation.ts`.  The source
reads the clock (`const now = new Date()`); the embedding takes `now` as an
argument.  `none` stands for `isValid: true`; `some e` for the failing
result whose `message` is `timeSlotErrorMessage e`. -/
def validateTimeSlot (startTime endTime now : Int) : Option TimeSlotError :=
  if startTime ≥ endTime then
    some .invalidRange
  else if endTime ≤ now then
    some .pastEnd
  else if endTime - startTime < minDurationMs then
    some .tooShort
  else if endTime - startTime > maxDurationMs then
    some .tooLong
  else
    none

/-! ## `QuietBlockService.checkForConflicts` (`src/lib/services/quietBlockService.ts`)

The service issues a Mongo `find` whose `$or` clause enumerates three
overlap shapes, restricted to the owner and to `status` in
`{scheduled, active}` (note: `isDeleted` is NOT part of this query), then
sorts by `startTime` ascending.  The embedding takes the stored documents
as a list and models `find(query).sort(\x7bstartTime: 1\x7d)` as
filter-then-insertion-sort. -/

/-- The `$or` overlap clause of `checkForConflicts`. -/
def conflictQueryOr (startTime endTime : Int) (b : QuietBlock) : Bool :=
  (b.startTime ≤ startTime && b.endTime > startTime) ||
  (b.startTime < endTime && b.endTime ≥ endTime) ||
  (b.startTime ≥ startTime && b.endTime ≤ endTime)

/-- Full match predicate of the `checkForConflicts` query, including the
owner restriction, the status restriction, and `_id: \x7b$ne: excludeBlockId\x7d`. -/
def conflictQueryMatches (supabaseUserId : Nat) (startTime endTime : Int)
    (excludeBlockId : Option Nat) (b : QuietBlock) : Bool :=
  b.supabaseUserId = supabaseUserId &&
  (b.status = .scheduled || b.status = .active) &&
  conflictQueryOr startTime endTime b &&
  (match excludeBlockId with
   | some eid => b.id ≠ eid
   | none => true)

/-- Ordering used by `.sort(\x7bstartTime: 1\x7d)`. -/
def byStartTime (a b : QuietBlock) : Prop := a.startTime ≤ b.startTime

instance : DecidableRel byStartTime := fun a b => by
  unfold byStartTime
  infer_instance

/-- `QuietBlockService.checkForConflicts`, as a pure function of the stored
documents. -/
def checkForConflicts (docs : List QuietBlock) (supabaseUserId : Nat)
    (startTime endTime : Int) (excludeBlockId : Option Nat) : List QuietBlock :=
  (docs.filter
      (conflictQueryMatches supabaseUserId startTime endTime excludeBlockId)).insertionSort
    byStartTime

/-! ## `QuietBlockService.updateQuietBlock` -/

/-- The `reminderConfig` part of an update payload; `updateQuietBlock` only
reads `minutesBefore` from it. -/
structure UpdateReminderConfigIn where
  minutesBefore : Option Int
  deriving DecidableEq, Repr

/-- `UpdateQuietBlockInput`, restricted to the fields `updateQuietBlock`
merges.  `startTime`/`endTime` arrive as strings that the service turns into
`Date` values (optionally combined with `date`); the embedding carries the
resulting instant directly. -/
structure UpdateQuietBlockInput where
  title : Option String
  startTime : Option Int
  endTime : Option Int
  status : Option QuietBlockStatus
  reminderConfig : Option UpdateReminderConfigIn
  deriving DecidableEq, Repr

/-- The field-merge part of `QuietBlockService.updateQuietBlock`
(lines 249-293 of `src/lib/services/quietBlockService.ts`).  The guard for
recomputing the reminder is exactly the code's
`updates.reminderConfig?.minutesBefore !== undefined && quietBlock.startTime`
(the second conjunct is always truthy: `startTime` is a required `Date`). -/
def updateQuietBlock (quietBlock : QuietBlock) (updates : UpdateQuietBlockInput) :
    QuietBlock :=
  let b := match updates.title with
    | some t => { quietBlock with title := t }
    | none => quietBlock
  let b := match updates.startTime with
    | some s => { b with startTime := s }
    | none => b
  let b := match updates.endTime with
    | some e => { b with endTime := e }
    | none => b
  let b := match updates.status with
    | some s => { b with status := s }
    | none => b
  match updates.reminderConfig with
  | some rc =>
    match rc.minutesBefore with
    | some m =>
      { b with
        reminderScheduledAt := some (b.startTime - m * 60 * 1000)
        reminderSent := false }
    | none => b
  | none => b

/-! ## Creation and the pre-save hook -/

/-- `reminderConfig` as it appears in a validated create payload. -/
structure CreateReminderConfigIn where
  enabled : Bool
  minutesBefore : Option Int
  emailEnabled : Bool
  pushEnabled : Bool
  deriving DecidableEq, Repr

/-- A validated create payload (`CreateQuietBlockInput`), restricted to the
fields the reminder computation reads. -/
structure CreateQuietBlockData where
  startTime : Int
  endTime : Int
  reminderConfig : Option CreateReminderConfigIn
  deriving DecidableEq, Repr

/-- The reminder computation of `QuietBlockService.createQuietBlock`
(lines 47-51): `reminderScheduledAt` is set only when
`blockData.reminderConfig?.enabled && blockData.reminderConfig.minutesBefore`
is truthy (a `minutesBefore` of `0` is falsy in JS). -/
def createReminderScheduledAt (blockData : CreateQuietBlockData) : Option Int :=
  match blockData.reminderConfig with
  | some c =>
    match c.minutesBefore with
    | some m =>
      if c.enabled && m ≠ 0 then
        some (blockData.startTime - m * 60 * 1000)
      else none
    | none => none
  | none => none

/-- The defaulting branch of the Mongoose pre-save hook
(`QuietBlockSchema.pre` in `src/models/QuietBlock.ts`): on a new document
without a `reminderScheduledAt`, default it to 15 minutes before start. -/
def preSaveReminderScheduledAt (isNew : Bool) (startTime : Int)
    (reminderScheduledAt : Option Int) : Option Int :=
  if isNew && reminderScheduledAt.isNone then
    some (startTime - 15 * 60 * 1000)
  else
    reminderScheduledAt

/-- `reminderScheduledAt` of a freshly created and saved block: the service
computation followed by the pre-save hook with `isNew = true`. -/
def savedReminderScheduledAt (blockData : CreateQuietBlockData) : Option Int :=
  preSaveReminderScheduledAt true blockData.startTime
    (createReminderScheduledAt blockData)

/-! ## The reminder cron handler
(`src/app/api/cron/send-reminders/route-backup.ts`, `POST`)

The handler reads the clock (`now`), fetches candidate blocks with one Mongo
query, loops over them dispatching emails, and marks each successfully
dispatched block with `findByIdAndUpdate`.  The embedding takes `now`, the
stored documents, and the notifier outcome (`emailOk : Nat → Bool`, success
of `emailService.sendQuietBlockReminder` per block id) as inputs. -/

/-- `10 * 60 * 1000` (`timeTolerance` in the handler). -/
def timeTolerance : Int := 10 * 60 * 1000

/-- `60 * 60 * 1000` (the one-hour `lookAheadTime` window). -/
def lookAheadMs : Int := 60 * 60 * 1000

/-- JS `x || d` on an optionally-present number: `none` and `some 0` are
falsy and fall through to the default. -/
def jsOrNum (x : Option Int) (d : Int) : Int :=
  match x with
  | some v => if v = 0 then d else v
  | none => d

/-- The candidate query of the handler:
`status: 'scheduled', reminderSent: false, startTime: \x7b$gte: now, $lte: lookAheadTime\x7d`. -/
def isReminderCandidate (now : Int) (b : QuietBlock) : Bool :=
  b.status = .scheduled && !b.reminderSent &&
  now ≤ b.startTime && b.startTime ≤ now + lookAheadMs

/-- `reminderMinutes` of the handler:
`quietBlock.reminderConfig?.minutesBefore || user.preferences?.reminderMinutesBefore || 15`. -/
def reminderMinutes (user : UserInfo) (b : QuietBlock) : Int :=
  jsOrNum (b.reminderConfig.bind (fun c => c.minutesBefore))
    (jsOrNum user.reminderMinutesBefore 15)

/-- Outcome of processing one candidate block inside the loop:
`noUser` = missing/unpopulated user (counted as an error), `disabled` =
reminders or email disabled (skipped), `notInWindow` = `shouldSendNow` was
false (skipped), `sent` = notifier succeeded, `failed` = notifier failed
(counted as an error). -/
inductive ReminderOutcome
  | noUser
  | disabled
  | notInWindow
  | sent
  | failed
  deriving DecidableEq, Repr

/-- `reminderTime` of the handler:
`new Date(quietBlock.startTime.getTime() - reminderMinutes * 60 * 1000)`. -/
def reminderTimeOf (user : UserInfo) (b : QuietBlock) : Int :=
  b.startTime - reminderMinutes user b * 60 * 1000

/-- `shouldSendNow` of the handler:
`timeSinceReminder >= 0 && timeSinceReminder <= timeTolerance` where
`timeSinceReminder = now - reminderTime`. -/
def shouldSendNowOf (now reminderTime : Int) : Bool :=
  0 ≤ now - reminderTime && now - reminderTime ≤ timeTolerance

/-- One iteration of the handler loop, up to and including the notifier
call, mirroring the source order: user check, reminder-time computation,
enabled/emailEnabled check, `shouldSendNow` check, dispatch. -/
def processQuietBlock (emailOk : Nat → Bool) (now : Int) (b : QuietBlock) :
    ReminderOutcome :=
  match b.user with
  | none => .noUser
  | some user =>
    if user.email = "" then .noUser
    else if !(b.reminderConfig.elim false (fun c => c.enabled)) ||
            !(b.reminderConfig.elim false (fun c => c.emailEnabled)) then
      .disabled
    else if !shouldSendNowOf now (reminderTimeOf user b) then
      .notInWindow
    else if emailOk b.id then
      .sent
    else
      .failed

/-- Outcome of one invocation for a given stored block: `none` when the
block is not even fetched by the candidate query. -/
def blockOutcome (emailOk : Nat → Bool) (now : Int) (b : QuietBlock) :
    Option ReminderOutcome :=
  if isReminderCandidate now b then some (processQuietBlock emailOk now b)
  else none

/-- `findByIdAndUpdate(id, \x7breminderSent: true, reminderScheduledAt: now\x7d)`
applied to one stored document. -/
def markReminderSentById (now : Int) (id : Nat) (x : QuietBlock) : QuietBlock :=
  if x.id = id then
    { x with reminderSent := true, reminderScheduledAt := some now }
  else x

/-- The handler loop over the fetched candidates, threading the stored
documents through the per-success `findByIdAndUpdate` writes and
accumulating `successCount`, `errorCount` and the ids of the blocks whose
email was sent. -/
def sendRemindersLoop (emailOk : Nat → Bool) (now : Int) :
    List QuietBlock → List QuietBlock → Nat × Nat × List Nat × List QuietBlock
  | [], db => (0, 0, [], db)
  | b :: rest, db =>
    let o := processQuietBlock emailOk now b
    let db1 := if o = .sent then db.map (markReminderSentById now b.id) else db
    let r := sendRemindersLoop emailOk now rest db1
    ((if o = .sent then 1 else 0) + r.1,
     (if o = .failed || o = .noUser then 1 else 0) + r.2.1,
     (if o = .sent then [b.id] else []) ++ r.2.2.1,
     r.2.2.2)

/-- Aggregate result of one invocation of the handler:
the final stored documents, the ids dispatched successfully, and the
`remindersSent` / `errors` counts of the JSON response. -/
structure ReminderRunResult where
  updated : List QuietBlock
  sentIds : List Nat
  successCount : Nat
  errorCount : Nat
  deriving DecidableEq, Repr

/-- One full invocation of the `POST` handler over stored documents `db`:
fetch the candidates, run the loop, return the aggregate counts. -/
def sendReminders (emailOk : Nat → Bool) (now : Int) (db : List QuietBlock) :
    ReminderRunResult :=
  let upcomingQuietBlocks := db.filter (isReminderCandidate now)
  let r := sendRemindersLoop emailOk now upcomingQuietBlocks db
  { updated := r.2.2.2
    sentIds := r.2.2.1
    successCount := r.1
    errorCount := r.2.1 }

/-! ## Client-side create/edit form validation
(`handleFormSubmit` in the quiet-block form component) -/

/-- A JS `Date` as the form code reads it: the absolute instant
(`getTime()`) together with the local calendar fields (`getFullYear()`,
`getMonth()`, `getDate()`, `getHours()`, `getMinutes()`) and validity
(`!isNaN(getTime())`). -/
structure JsDate where
  epochMs : Int
  year : Int
  month0 : Int
  day : Int
  hours : Int
  minutes : Int
  valid : Bool
  deriving DecidableEq, Repr

/-- The local calendar date triple the form builds
(`getFullYear()`, `getMonth() + 1`, `getDate()`). -/
def localDate (d : JsDate) : Int × Int × Int := (d.year, d.month0 + 1, d.day)

/-- Result of the client-side validation in `handleFormSubmit`: each
rejection is one of the `alert`-and-return branches, in source order;
`submitted` is the `fetch` to the create/update API, carrying the payload
date (local date of the start) and the HH:MM pairs. -/
inductive FormSubmitResult
  | invalidDates
  | endNotAfterStart
  | endTooSoon
  | crossesMidnight
  | submitted (date : Int × Int × Int) (startHM : Int × Int) (endHM : Int × Int)
  deriving DecidableEq, Repr

/-- The validation pipeline of `handleFormSubmit` (the missing-string check
on the raw form fields is below the level of this embedding, which receives
already-constructed `Date` values): invalid dates, start not before end
(`startDateTime >= endDateTime`), end within one minute of `now`
(`endDateTime < bufferTime`), differing local calendar dates
(`startLocalDate !== endLocalDate`), otherwise submit. -/
def handleFormSubmit (now : Int) (startDateTime endDateTime : JsDate) :
    FormSubmitResult :=
  if !startDateTime.valid || !endDateTime.valid then
    .invalidDates
  else if endDateTime.epochMs ≤ startDateTime.epochMs then
    .endNotAfterStart
  else if endDateTime.epochMs < now + 60000 then
    .endTooSoon
  else if localDate startDateTime ≠ localDate endDateTime then
    .crossesMidnight
  else
    .submitted (localDate startDateTime)
      (startDateTime.hours, startDateTime.minutes)
      (endDateTime.hours, endDateTime.minutes)

/-- The create flow as seen from the form: the server-side overlap check of
`POST /api/quiet-blocks` (`checkQuietBlockOverlap`) runs only when the
client validation submitted the request; every rejection branch returns
before the `fetch`. -/
def clientCreateFlowOverlapCheck (now : Int) (startDateTime endDateTime : JsDate)
    (existingBlocks : List QuietBlock) : Option OverlapCheckResult :=
  match handleFormSubmit now startDateTime endDateTime with
  | .submitted _ _ _ =>
    some (checkQuietBlockOverlap
      { startTime := startDateTime.epochMs, endTime := endDateTime.epochMs }
      existingBlocks none)
  | _ => none

/-! ## Theorems -/

/-- C1: for every pair of time slots `a` and `b`, `doTimeSlotsOverlap a b`
is true iff `a.startTime < b.endTime` and `b.startTime < a.endTime`; two
intervals that merely touch (`a.endTime = b.startTime`) do not overlap; and
the test is symmetric. -/
theorem doTimeSlotsOverlap_spec (a b : TimeSlot) :
    (doTimeSlotsOverlap a b = true ↔
      a.startTime < b.endTime ∧ b.startTime < a.endTime) ∧
    (a.endTime = b.startTime → doTimeSlotsOverlap a b = false) ∧
    doTimeSlotsOverlap a b = doTimeSlotsOverlap b a := by
  refine ⟨?_, ?_, ?_⟩
  · simp [doTimeSlotsOverlap]
  · intro h
    simp [doTimeSlotsOverlap, h]
  · simp [doTimeSlotsOverlap, Bool.and_comm]

/-- Witness for C1 at the spec's own example: `[10:00, 11:00)` and
`[11:00, 12:00)` (in ms of the day) touch and do not overlap. -/
theorem doTimeSlotsOverlap_spec_witness :
    doTimeSlotsOverlap { startTime := 36000000, endTime := 39600000 }
      { startTime := 39600000, endTime := 43200000 } = false :=
  (doTimeSlotsOverlap_spec { startTime := 36000000, endTime := 39600000 }
    { startTime := 39600000, endTime := 43200000 }).2.1 rfl

/-- C6: `validateTimeSlot` reports the first failing rule in the fixed
order range (`start >= end`), past (`end <= now`), too-short
(`end - start < 15min`), too-long (`end - start > 8h`), and accepts
otherwise; the duration boundaries are inclusive: a 14-minute block is
rejected, a 15-minute block accepted, an 8-hour block accepted, and an
8-hour-1-minute block rejected. -/
theorem validateTimeSlot_spec (startTime endTime now : Int) :
    (validateTimeSlot startTime endTime now = some .invalidRange ↔
      startTime ≥ endTime) ∧
    (startTime < endTime →
      (validateTimeSlot startTime endTime now = some .pastEnd ↔ endTime ≤ now)) ∧
    (startTime < endTime → now < endTime →
      (validateTimeSlot startTime endTime now = some .tooShort ↔
        endTime - startTime < minDurationMs)) ∧
    (startTime < endTime → now < endTime → minDurationMs ≤ endTime - startTime →
      (validateTimeSlot startTime endTime now = some .tooLong ↔
        endTime - startTime > maxDurationMs)) ∧
    (validateTimeSlot startTime endTime now = none ↔
      (startTime < endTime ∧ now < endTime ∧
        minDurationMs ≤ endTime - startTime ∧ endTime - startTime ≤ maxDurationMs)) ∧
    validateTimeSlot 60000 (60000 + 14 * 60 * 1000) 0 = some .tooShort ∧
    validateTimeSlot 60000 (60000 + 15 * 60 * 1000) 0 = none ∧
    validateTimeSlot 60000 (60000 + 8 * 60 * 60 * 1000) 0 = none ∧
    validateTimeSlot 60000 (60000 + 8 * 60 * 60 * 1000 + 60000) 0 = some .tooLong := by
  refine ⟨?_, ?_, ?_, ?_, ?_, by decide, by decide, by decide, by decide⟩ <;>
    unfold validateTimeSlot minDurationMs maxDurationMs <;>
    split_ifs with h1 h2 h3 h4 <;> simp_all <;> omega

/-- Witness for C6: a slot that ends in the past fails with the past-end
rule (`start = 0`, `end = 1min`, `now = 2min`). -/
theorem validateTimeSlot_spec_witness :
    validateTimeSlot 0 60000 120000 = some .pastEnd :=
  ((validateTimeSlot_spec 0 60000 120000).2.1 (by decide)).mpr (by decide)

/-- The per-block condition under which the `checkQuietBlockOverlap` loop
pushes a block: not the excluded block, not soft-deleted, and overlapping
the candidate. -/
def conflictPred (newBlock : TimeSlot) (excludeBlockId : Option Nat)
    (b : QuietBlock) : Bool :=
  !decide (excludeBlockId = some b.id) && !b.isDeleted &&
    doTimeSlotsOverlap newBlock { startTime := b.startTime, endTime := b.endTime }

theorem collectConflicts_eq_filter (newBlock : TimeSlot) (eb : Option Nat) :
    ∀ l : List QuietBlock,
      collectConflicts newBlock eb l = l.filter (conflictPred newBlock eb)
  | [] => rfl
  | b :: rest => by
    have ih := collectConflicts_eq_filter newBlock eb rest
    unfold collectConflicts
    by_cases h1 : eb = some b.id <;>
      by_cases h2 : b.isDeleted <;>
      by_cases h3 : doTimeSlotsOverlap newBlock
        { startTime := b.startTime, endTime := b.endTime } = true <;>
      simp_all [List.filter_cons, conflictPred]

/-- Block used in the C2 counterexample: a completed, non-deleted block at
`[10:00, 11:00)`. -/
def completedOverlapBlock : QuietBlock :=
  { id := 1
    supabaseUserId := 7
    title := "Morning focus"
    startTime := 36000000
    endTime := 39600000
    status := .completed
    reminderConfig := none
    reminderSent := false
    reminderScheduledAt := none
    isDeleted := false
    user := none }

/-- Counterexample to C2 as stated: against a candidate `[10:30, 12:00)`,
a COMPLETED (non-deleted) overlapping block does appear in the conflict
list of `checkQuietBlockOverlap`, and `hasOverlap` is true, contradicting
"completed and cancelled blocks never appear": the loop never consults
`status`. -/
theorem checkQuietBlockOverlap_status_counterexample :
    (checkQuietBlockOverlap { startTime := 37800000, endTime := 43200000 }
        [completedOverlapBlock] none).hasOverlap = true ∧
    completedOverlapBlock ∈
      (checkQuietBlockOverlap { startTime := 37800000, endTime := 43200000 }
        [completedOverlapBlock] none).conflictingBlocks ∧
    completedOverlapBlock.status = .completed ∧
    completedOverlapBlock.isDeleted = false := by
  refine ⟨rfl, ?_, rfl, rfl⟩
  simp [checkQuietBlockOverlap, collectConflicts, completedOverlapBlock,
    doTimeSlotsOverlap]

/-- C2 (amended): the conflict list of `checkQuietBlockOverlap` contains
exactly those existing blocks that overlap the candidate, are not
soft-deleted, and do not match `excludeBlockId` — the block status is NOT
consulted, so overlapping completed or cancelled blocks appear as well —
`hasOverlap` is true iff that list is non-empty, and every qualifying
overlapping block appears, never just the first one found. -/
theorem checkQuietBlockOverlap_spec (newBlock : TimeSlot)
    (existingBlocks : List QuietBlock) (excludeBlockId : Option Nat) :
    (checkQuietBlockOverlap newBlock existingBlocks excludeBlockId).conflictingBlocks =
      existingBlocks.filter (conflictPred newBlock excludeBlockId) ∧
    ((checkQuietBlockOverlap newBlock existingBlocks excludeBlockId).hasOverlap = true ↔
      (checkQuietBlockOverlap newBlock existingBlocks excludeBlockId).conflictingBlocks ≠ []) ∧
    (∀ b ∈ existingBlocks, conflictPred newBlock excludeBlockId b = true →
      b ∈ (checkQuietBlockOverlap newBlock existingBlocks
        excludeBlockId).conflictingBlocks) := by
  refine ⟨?_, ?_, ?_⟩
  · simpa [checkQuietBlockOverlap] using
      collectConflicts_eq_filter newBlock excludeBlockId existingBlocks
  · simp only [checkQuietBlockOverlap]
    constructor
    · intro h
      intro hnil
      simp_all
    · intro h
      simp_all [List.length_pos]
  · intro b hb hp
    simp only [checkQuietBlockOverlap,
      collectConflicts_eq_filter newBlock excludeBlockId existingBlocks]
    exact List.mem_filter.mpr ⟨hb, hp⟩

/-- Witness for C2 (amended): a scheduled, non-deleted overlapping block
qualifies and appears in the conflict list. -/
theorem checkQuietBlockOverlap_spec_witness :
    { completedOverlapBlock with status := .scheduled } ∈
      (checkQuietBlockOverlap { startTime := 37800000, endTime := 43200000 }
        [{ completedOverlapBlock with status := .scheduled }] none).conflictingBlocks :=
  (checkQuietBlockOverlap_spec { startTime := 37800000, endTime := 43200000 }
      [{ completedOverlapBlock with status := .scheduled }] none).2.2
    { completedOverlapBlock with status := .scheduled } (by decide) (by decide)

/-! ### Ordering and determinism of the conflict lists (C8) -/

instance : IsTotal QuietBlock byStartTime :=
  ⟨fun a b => Int.le_total a.startTime b.startTime⟩

instance : IsTrans QuietBlock byStartTime :=
  ⟨fun _ _ _ hab hbc => le_trans hab hbc⟩

/-- Strict version of the `startTime` ordering, used to make sorted lists
unique when all start times are distinct. -/
def strictByStartTime (a b : QuietBlock) : Prop := a.startTime < b.startTime

instance : IsAntisymm QuietBlock strictByStartTime :=
  ⟨fun a b h1 h2 => absurd (lt_trans h1 h2) (lt_irrefl _)⟩

theorem sorted_strict_of_nodup_startTimes {l : List QuietBlock}
    (hs : l.Sorted byStartTime) (hn : (l.map (fun b => b.startTime)).Nodup) :
    l.Sorted strictByStartTime := by
  have hne : l.Pairwise (fun a b : QuietBlock => a.startTime ≠ b.startTime) :=
    (List.pairwise_map).mp hn
  exact (hs.and hne).imp (fun h => lt_of_le_of_ne h.1 h.2)

/-- Scheduled block at `[10:00, 11:00)`, used in the C8 counterexample. -/
def earlyBlock : QuietBlock :=
  { id := 11
    supabaseUserId := 7
    title := "A"
    startTime := 36000000
    endTime := 39600000
    status := .scheduled
    reminderConfig := none
    reminderSent := false
    reminderScheduledAt := none
    isDeleted := false
    user := none }

/-- Scheduled block at `[11:30, 12:30)`, used in the C8 counterexample. -/
def lateBlock : QuietBlock :=
  { id := 12
    supabaseUserId := 7
    title := "B"
    startTime := 41400000
    endTime := 45000000
    status := .scheduled
    reminderConfig := none
    reminderSent := false
    reminderScheduledAt := none
    isDeleted := false
    user := none }

/-- Counterexample to C8 as stated: `checkQuietBlockOverlap` keeps input
order and never re-sorts, so the two orderings of the same two-block set
yield different conflict lists for the candidate `[10:30, 12:00)`, and the
list produced from the reversed input is not ordered by start time. -/
theorem checkQuietBlockOverlap_order_counterexample :
    (checkQuietBlockOverlap { startTime := 37800000, endTime := 43200000 }
        [lateBlock, earlyBlock] none).conflictingBlocks ≠
      (checkQuietBlockOverlap { startTime := 37800000, endTime := 43200000 }
        [earlyBlock, lateBlock] none).conflictingBlocks ∧
    ¬ (checkQuietBlockOverlap { startTime := 37800000, endTime := 43200000 }
        [lateBlock, earlyBlock] none).conflictingBlocks.Sorted byStartTime := by
  constructor
  · simp [checkQuietBlockOverlap, collectConflicts, earlyBlock, lateBlock,
      doTimeSlotsOverlap]
  · intro h
    have : (checkQuietBlockOverlap { startTime := 37800000, endTime := 43200000 }
        [lateBlock, earlyBlock] none).conflictingBlocks = [lateBlock, earlyBlock] := by
      simp [checkQuietBlockOverlap, collectConflicts, earlyBlock, lateBlock,
        doTimeSlotsOverlap]
    rw [this] at h
    have := List.rel_of_sorted_cons h earlyBlock (by simp)
    simp [byStartTime, lateBlock, earlyBlock] at this

/-- C8 (amended): `checkQuietBlockOverlap` preserves the input order of the
existing blocks (its conflict list is the order-preserving filter, so
permuting the input permutes the list rather than leaving it fixed, and it
is not re-sorted); the service-level `QuietBlockService.checkForConflicts`
does return its conflicts ordered by start time, and for stores whose
blocks have pairwise-distinct start times it is deterministic under
permutation of the stored documents. -/
theorem conflictList_ordering_spec :
    (∀ (newBlock : TimeSlot) (eb : Option Nat) (l : List QuietBlock),
      (checkQuietBlockOverlap newBlock l eb).conflictingBlocks =
        l.filter (conflictPred newBlock eb)) ∧
    (∀ (newBlock : TimeSlot) (eb : Option Nat) (l1 l2 : List QuietBlock),
      l1.Perm l2 →
        ((checkQuietBlockOverlap newBlock l1 eb).conflictingBlocks).Perm
          ((checkQuietBlockOverlap newBlock l2 eb).conflictingBlocks)) ∧
    (∀ (docs : List QuietBlock) (uid : Nat) (s e : Int) (eb : Option Nat),
      (checkForConflicts docs uid s e eb).Sorted byStartTime) ∧
    (∀ (docs1 docs2 : List QuietBlock) (uid : Nat) (s e : Int) (eb : Option Nat),
      docs1.Perm docs2 → (docs1.map (fun b => b.startTime)).Nodup →
        checkForConflicts docs1 uid s e eb = checkForConflicts docs2 uid s e eb) := by
  have hfil : ∀ (newBlock : TimeSlot) (eb : Option Nat) (l : List QuietBlock),
      (checkQuietBlockOverlap newBlock l eb).conflictingBlocks =
        l.filter (conflictPred newBlock eb) := by
    intro newBlock eb l
    simpa [checkQuietBlockOverlap] using collectConflicts_eq_filter newBlock eb l
  have hsorted : ∀ (docs : List QuietBlock) (uid : Nat) (s e : Int) (eb : Option Nat),
      (checkForConflicts docs uid s e eb).Sorted byStartTime := by
    intro docs uid s e eb
    exact List.sorted_insertionSort byStartTime _
  refine ⟨hfil, ?_, hsorted, ?_⟩
  · intro newBlock eb l1 l2 hperm
    rw [hfil, hfil]
    exact hperm.filter _
  · intro docs1 docs2 uid s e eb hperm hnodup
    have hpermF : (docs1.filter (conflictQueryMatches uid s e eb)).Perm
        (docs2.filter (conflictQueryMatches uid s e eb)) := hperm.filter _
    have hpermS : (checkForConflicts docs1 uid s e eb).Perm
        (checkForConflicts docs2 uid s e eb) := by
      unfold checkForConflicts
      exact ((List.perm_insertionSort byStartTime _).trans hpermF).trans
        (List.perm_insertionSort byStartTime _).symm
    have hn1 : ((checkForConflicts docs1 uid s e eb).map
        (fun b => b.startTime)).Nodup := by
      have hsub : ((docs1.filter (conflictQueryMatches uid s e eb)).map
          (fun b => b.startTime)).Nodup :=
        ((List.filter_sublist docs1).map (fun b => b.startTime)).nodup hnodup
      unfold checkForConflicts
      exact (((List.perm_insertionSort byStartTime
        (docs1.filter (conflictQueryMatches uid s e eb))).map
          (fun b => b.startTime)).symm).nodup hsub
    have hn2 : ((checkForConflicts docs2 uid s e eb).map
        (fun b => b.startTime)).Nodup := (hpermS.map _).nodup hn1
    exact List.eq_of_perm_of_sorted hpermS
      (sorted_strict_of_nodup_startTimes (hsorted docs1 uid s e eb) hn1)
      (sorted_strict_of_nodup_startTimes (hsorted docs2 uid s e eb) hn2)

/-- Witness for C8 (amended): at a concrete two-document store with
distinct start times, the two orderings give the same sorted conflict
list. -/
theorem conflictList_ordering_spec_witness :
    checkForConflicts [lateBlock, earlyBlock] 7 37800000 43200000 none =
      checkForConflicts [earlyBlock, lateBlock] 7 37800000 43200000 none :=
  conflictList_ordering_spec.2.2.2 [lateBlock, earlyBlock] [earlyBlock, lateBlock]
    7 37800000 43200000 none (by decide) (by decide)

/-! ### Characterizing one invocation of the cron handler -/

/-- Ids of the candidates whose email dispatch succeeds in one invocation. -/
def sentIdsOf (emailOk : Nat → Bool) (now : Int) (cands : List QuietBlock) :
    List Nat :=
  (cands.filter (fun b => processQuietBlock emailOk now b = .sent)).map
    (fun b => b.id)

/-- Marking every stored document whose id is in `ids` as sent: the
accumulated effect of the loop's `findByIdAndUpdate` calls. -/
def markSentList (now : Int) (ids : List Nat) (x : QuietBlock) : QuietBlock :=
  if x.id ∈ ids then
    { x with reminderSent := true, reminderScheduledAt := some now }
  else x

theorem markSent_comm (now : Int) (i : Nat) (ids : List Nat) (x : QuietBlock) :
    markSentList now ids (markReminderSentById now i x) =
      markSentList now (i :: ids) x := by
  unfold markSentList markReminderSentById
  by_cases h1 : x.id = i <;> by_cases h2 : x.id ∈ ids <;> simp_all

theorem sendRemindersLoop_spec (emailOk : Nat → Bool) (now : Int) :
    ∀ (cands db : List QuietBlock),
      sendRemindersLoop emailOk now cands db =
        ((cands.filter (fun b => processQuietBlock emailOk now b = .sent)).length,
         (cands.filter (fun b => processQuietBlock emailOk now b = .failed ||
            processQuietBlock emailOk now b = .noUser)).length,
         sentIdsOf emailOk now cands,
         db.map (markSentList now (sentIdsOf emailOk now cands)))
  | [], db => by
    have h1 : ∀ x ∈ db, markSentList now [] x = id x := by
      intro x _
      simp [markSentList]
    simp only [sendRemindersLoop, sentIdsOf, List.filter_nil, List.map_nil,
      List.length_nil, List.map_congr_left h1, List.map_id]
  | b :: rest, db => by
    have ih := sendRemindersLoop_spec emailOk now rest
    have hmark : ∀ db1 : List QuietBlock,
        (db1.map (markReminderSentById now b.id)).map
            (markSentList now (sentIdsOf emailOk now rest)) =
          db1.map (markSentList now (b.id :: sentIdsOf emailOk now rest)) := by
      intro db1
      rw [List.map_map]
      refine List.map_congr_left ?_
      intro x _
      exact markSent_comm now b.id (sentIdsOf emailOk now rest) x
    cases hproc : processQuietBlock emailOk now b with
    | sent =>
      simp only [sendRemindersLoop, hproc, ih, Prod.mk.injEq]
      refine ⟨by simp [List.filter_cons, hproc, Nat.add_comm],
        by simp [List.filter_cons, hproc],
        by simp [sentIdsOf, List.filter_cons, hproc], ?_⟩
      simp only [reduceIte, hmark db]
      simp [sentIdsOf, List.filter_cons, hproc]
    | failed =>
      simp [sendRemindersLoop, hproc, ih, sentIdsOf, List.filter_cons,
        Nat.add_comm]
    | noUser =>
      simp [sendRemindersLoop, hproc, ih, sentIdsOf, List.filter_cons,
        Nat.add_comm]
    | disabled =>
      simp [sendRemindersLoop, hproc, ih, sentIdsOf, List.filter_cons]
    | notInWindow =>
      simp [sendRemindersLoop, hproc, ih, sentIdsOf, List.filter_cons]

/-- One invocation, characterized: the counts range over all fetched
candidates, the sent ids are exactly the successfully dispatched
candidates, and the stored documents are updated pointwise. -/
theorem sendReminders_spec (emailOk : Nat → Bool) (now : Int)
    (db : List QuietBlock) :
    sendReminders emailOk now db =
      { updated := db.map (markSentList now
          (sentIdsOf emailOk now (db.filter (isReminderCandidate now))))
        sentIds := sentIdsOf emailOk now (db.filter (isReminderCandidate now))
        successCount := ((db.filter (isReminderCandidate now)).filter
          (fun b => processQuietBlock emailOk now b = .sent)).length
        errorCount := ((db.filter (isReminderCandidate now)).filter
          (fun b => processQuietBlock emailOk now b = .failed ||
            processQuietBlock emailOk now b = .noUser)).length } := by
  simp only [sendReminders]
  rw [sendRemindersLoop_spec]

theorem mem_sentIdsOf {emailOk : Nat → Bool} {now : Int}
    {cands : List QuietBlock} {i : Nat} :
    i ∈ sentIdsOf emailOk now cands ↔
      ∃ c ∈ cands, processQuietBlock emailOk now c = .sent ∧ c.id = i := by
  unfold sentIdsOf
  simp only [List.mem_map, List.mem_filter, decide_eq_true_eq]
  constructor
  · rintro ⟨c, ⟨hc, hs⟩, hid⟩
    exact ⟨c, hc, hs, hid⟩
  · rintro ⟨c, hc, hs, hid⟩
    exact ⟨c, ⟨hc, hs⟩, hid⟩

theorem processQuietBlock_sent_emailOk (emailOk : Nat → Bool) (now : Int)
    (b : QuietBlock) :
    processQuietBlock emailOk now b = .sent → emailOk b.id = true := by
  unfold processQuietBlock
  cases hb : b.user with
  | none => simp
  | some user =>
    intro h
    by_cases he : user.email = ""
    · simp [he] at h
    · dsimp only at h
      rw [if_neg he] at h
      split_ifs at h <;> simp_all

/-- `processQuietBlock` consults the notifier only at the block's own id. -/
theorem processQuietBlock_congr (emailOk emailOk2 : Nat → Bool) (now : Int)
    (b : QuietBlock) (h : emailOk b.id = emailOk2 b.id) :
    processQuietBlock emailOk now b = processQuietBlock emailOk2 now b := by
  unfold processQuietBlock
  cases hb : b.user with
  | none => rfl
  | some user => rw [h]

theorem markSentList_id (now : Int) (ids : List Nat) (x : QuietBlock) :
    (markSentList now ids x).id = x.id := by
  unfold markSentList
  split <;> rfl

theorem blockOutcome_of_candidate {emailOk : Nat → Bool} {now : Int}
    {db : List QuietBlock} {b : QuietBlock}
    (hb : b ∈ db.filter (isReminderCandidate now)) :
    blockOutcome emailOk now b = some (processQuietBlock emailOk now b) := by
  have hc := (List.mem_filter.mp hb).2
  unfold blockOutcome
  rw [if_pos hc]

/-- Spec example block for C3: starts 14 minutes from `now = 0`, reminder
15 minutes before, reminders and email enabled. -/
def dueExampleBlock : QuietBlock :=
  { id := 21
    supabaseUserId := 7
    title := "Due"
    startTime := 14 * 60 * 1000
    endTime := 74 * 60 * 1000
    status := .scheduled
    reminderConfig := some
      { enabled := true, minutesBefore := some 15, emailEnabled := true,
        pushEnabled := false }
    reminderSent := false
    reminderScheduledAt := none
    isDeleted := false
    user := some
      { email := "u", name := "U", notificationEmail := none,
        reminderMinutesBefore := none } }

/-- Spec example block for C3: starts 20 minutes from `now = 0`, reminder
15 minutes before — not yet due. -/
def notYetDueExampleBlock : QuietBlock :=
  { dueExampleBlock with
    id := 22
    startTime := 20 * 60 * 1000
    endTime := 80 * 60 * 1000 }

/-- C3: a candidate block with a populated user, reminders and email
enabled, and reminder offset `m` minutes, is dispatched (email attempted:
outcome `sent` or `failed`) iff
`reminderTime ≤ now ≤ reminderTime + timeTolerance` where
`reminderTime = startTime - m minutes`; concretely, at `now = 0` a block
starting in 14 minutes with a 15-minute offset is due, and one starting in
20 minutes with a 15-minute offset is not yet due. -/
theorem reminderDue_window_spec (emailOk : Nat → Bool) (now : Int)
    (b : QuietBlock) (user : UserInfo) (cfg : ReminderConfig) (m : Int)
    (huser : b.user = some user) (hemail : user.email ≠ "")
    (hcfg : b.reminderConfig = some cfg) (hen : cfg.enabled = true)
    (hem : cfg.emailEnabled = true) (hm : cfg.minutesBefore = some m)
    (hm0 : m ≠ 0) (hcand : isReminderCandidate now b = true) :
    ((blockOutcome emailOk now b = some .sent ∨
        blockOutcome emailOk now b = some .failed) ↔
      (b.startTime - m * 60 * 1000 ≤ now ∧
        now ≤ b.startTime - m * 60 * 1000 + timeTolerance)) ∧
    blockOutcome (fun _ => true) 0 dueExampleBlock = some .sent ∧
    blockOutcome (fun _ => true) 0 notYetDueExampleBlock = some .notInWindow := by
  refine ⟨?_, by decide, by decide⟩
  have hmin : reminderMinutes user b = m := by
    simp [reminderMinutes, hcfg, hm, jsOrNum, hm0]
  have hrt : reminderTimeOf user b = b.startTime - m * 60 * 1000 := by
    simp [reminderTimeOf, hmin]
  unfold blockOutcome
  rw [if_pos hcand]
  unfold processQuietBlock
  rw [huser]
  dsimp only
  rw [if_neg hemail]
  have hdis : ((!b.reminderConfig.elim false fun c => c.enabled) ||
      !b.reminderConfig.elim false fun c => c.emailEnabled) = false := by
    simp [hcfg, hen, hem]
  simp only [hdis, Bool.false_eq_true, if_false]
  rw [hrt]
  cases hw : shouldSendNowOf now (b.startTime - m * 60 * 1000) with
  | true =>
    have hwin : b.startTime - m * 60 * 1000 ≤ now ∧
        now ≤ b.startTime - m * 60 * 1000 + timeTolerance := by
      have := hw
      simp only [shouldSendNowOf, Bool.and_eq_true, decide_eq_true_eq] at this
      omega
    simp only [Bool.not_true, Bool.false_eq_true, if_false]
    refine iff_of_true ?_ hwin
    cases hok : emailOk b.id <;> simp [hok]
  | false =>
    have hwin : ¬ (b.startTime - m * 60 * 1000 ≤ now ∧
        now ≤ b.startTime - m * 60 * 1000 + timeTolerance) := by
      have := hw
      simp only [shouldSendNowOf, Bool.and_eq_false_iff, decide_eq_false_iff_not,
        not_le] at this
      omega
    simp only [Bool.not_false, if_true]
    exact iff_of_false (by simp) hwin

/-- Witness for C3 at the due example block. -/
theorem reminderDue_window_spec_witness :
    blockOutcome (fun _ => true) 0 dueExampleBlock = some .sent :=
  (reminderDue_window_spec (fun _ => true) 0 dueExampleBlock
    { email := "u", name := "U", notificationEmail := none,
      reminderMinutesBefore := none }
    { enabled := true, minutesBefore := some 15, emailEnabled := true,
      pushEnabled := false }
    15 rfl (by decide) rfl rfl rfl rfl (by decide) (by decide)).2.1

/-- C4: once an invocation at instant `now` successfully dispatches the
reminder of some block id, every stored document with that id is marked
`reminderSent = true` and is no longer a candidate, so a second invocation
at the same `now` over the updated store (with any notifier behavior)
dispatches no second email for that id. -/
theorem reminderScheduler_idempotent (emailOk emailOk2 : Nat → Bool)
    (now : Int) (db : List QuietBlock) (i : Nat)
    (hsent : i ∈ (sendReminders emailOk now db).sentIds) :
    (∀ u ∈ (sendReminders emailOk now db).updated, u.id = i →
      u.reminderSent = true ∧ isReminderCandidate now u = false) ∧
    i ∉ (sendReminders emailOk2 now
      ((sendReminders emailOk now db).updated)).sentIds := by
  rw [sendReminders_spec] at hsent
  simp only at hsent
  have hmarked : ∀ u ∈ (sendReminders emailOk now db).updated, u.id = i →
      u.reminderSent = true ∧ isReminderCandidate now u = false := by
    intro u hu hid
    rw [sendReminders_spec] at hu
    simp only [List.mem_map] at hu
    obtain ⟨x, hx, rfl⟩ := hu
    have hxid : x.id = i := by
      rw [← markSentList_id now
        (sentIdsOf emailOk now (db.filter (isReminderCandidate now))) x]
      exact hid
    have : markSentList now
        (sentIdsOf emailOk now (db.filter (isReminderCandidate now))) x =
        { x with reminderSent := true, reminderScheduledAt := some now } := by
      unfold markSentList
      rw [if_pos (by rw [hxid]; exact hsent)]
    rw [this]
    refine ⟨rfl, ?_⟩
    simp [isReminderCandidate]
  refine ⟨hmarked, ?_⟩
  intro h2
  rw [sendReminders_spec] at h2
  simp only at h2
  obtain ⟨c, hc, hcs, hcid⟩ := mem_sentIdsOf.mp h2
  have hcmem := (List.mem_filter.mp hc).1
  have hccand := (List.mem_filter.mp hc).2
  have := (hmarked c hcmem hcid).2
  rw [this] at hccand
  exact Bool.false_ne_true hccand

/-- Witness for C4: after the due example block's reminder is sent at
`now = 0`, re-running over the updated store dispatches nothing for id 21. -/
theorem reminderScheduler_idempotent_witness :
    21 ∉ (sendReminders (fun _ => true) 0
      ((sendReminders (fun _ => true) 0 [dueExampleBlock]).updated)).sentIds :=
  (reminderScheduler_idempotent (fun _ => true) (fun _ => true) 0
    [dueExampleBlock] 21 (by decide)).2

/-- C5: `reminderSent` is set only after the notifier confirms success
(every updated document marked sent traces back to an already-sent
document or to a candidate whose dispatch succeeded); a failed dispatch
leaves its block completely unchanged (still pending, eligible for retry);
one block's notifier outcome never influences another block's processing;
and the invocation returns aggregate success/error counts over the whole
candidate batch rather than raising on a per-block failure. -/
theorem reminderDispatch_error_handling (emailOk : Nat → Bool) (now : Int)
    (db : List QuietBlock) :
    (∀ b ∈ db, blockOutcome emailOk now b = some .failed →
      (db.map (fun x => x.id)).Nodup →
      ∀ u ∈ (sendReminders emailOk now db).updated, u.id = b.id → u = b) ∧
    (∀ u ∈ (sendReminders emailOk now db).updated, u.reminderSent = true →
      ∃ c ∈ db, u.id = c.id ∧ (c.reminderSent = true ∨
        (blockOutcome emailOk now c = some .sent ∧ emailOk c.id = true))) ∧
    (∀ (emailOk2 : Nat → Bool) (b : QuietBlock), emailOk b.id = emailOk2 b.id →
      processQuietBlock emailOk now b = processQuietBlock emailOk2 now b) ∧
    ((sendReminders emailOk now db).successCount =
      ((db.filter (isReminderCandidate now)).filter
        (fun b => processQuietBlock emailOk now b = .sent)).length ∧
     (sendReminders emailOk now db).errorCount =
      ((db.filter (isReminderCandidate now)).filter
        (fun b => processQuietBlock emailOk now b = .failed ||
          processQuietBlock emailOk now b = .noUser)).length) := by
  refine ⟨?_, ?_, ?_, ?_⟩
  · intro b hb hfail hnodup u hu hid
    have hnotin : b.id ∉ sentIdsOf emailOk now (db.filter (isReminderCandidate now)) := by
      intro hin
      obtain ⟨c, hc, hcs, hcid⟩ := mem_sentIdsOf.mp hin
      have hcmem := (List.mem_filter.mp hc).1
      have hceq : c = b := List.inj_on_of_nodup_map hnodup hcmem hb hcid
      rw [hceq] at hcs
      rw [blockOutcome_of_candidate (hceq ▸ hc), hcs] at hfail
      exact absurd (Option.some.inj hfail) (by simp)
    rw [sendReminders_spec] at hu
    simp only [List.mem_map] at hu
    obtain ⟨x, hx, rfl⟩ := hu
    have hxid : x.id = b.id := by
      rw [← markSentList_id now
        (sentIdsOf emailOk now (db.filter (isReminderCandidate now))) x]
      exact hid
    have hxb : x = b := List.inj_on_of_nodup_map hnodup hx hb hxid
    rw [hxb]
    unfold markSentList
    rw [if_neg hnotin]
  · intro u hu hus
    rw [sendReminders_spec] at hu
    simp only [List.mem_map] at hu
    obtain ⟨x, hx, rfl⟩ := hu
    by_cases hin : x.id ∈ sentIdsOf emailOk now (db.filter (isReminderCandidate now))
    · obtain ⟨c, hc, hcs, hcid⟩ := mem_sentIdsOf.mp hin
      refine ⟨c, (List.mem_filter.mp hc).1, ?_, Or.inr ⟨?_, ?_⟩⟩
      · rw [markSentList_id, hcid]
      · rw [blockOutcome_of_candidate hc, hcs]
      · exact processQuietBlock_sent_emailOk emailOk now c hcs
    · unfold markSentList at hus ⊢
      rw [if_neg hin] at hus ⊢
      exact ⟨x, hx, rfl, Or.inl hus⟩
  · intro emailOk2 b h
    exact processQuietBlock_congr emailOk emailOk2 now b h
  · rw [sendReminders_spec]
    exact ⟨rfl, rfl⟩

/-- Witness for C5: at `now = 0` with a failing notifier, the due example
block is left unchanged by the invocation. -/
theorem reminderDispatch_error_handling_witness :
    markSentList 0 (sentIdsOf (fun _ => false) 0
        ([dueExampleBlock].filter (isReminderCandidate 0))) dueExampleBlock =
      dueExampleBlock :=
  (reminderDispatch_error_handling (fun _ => false) 0 [dueExampleBlock]).1
    dueExampleBlock (by decide) (by decide) (by decide)
    (markSentList 0 (sentIdsOf (fun _ => false) 0
      ([dueExampleBlock].filter (isReminderCandidate 0))) dueExampleBlock)
    (by rw [sendReminders_spec]; exact List.mem_map_of_mem _ (by decide))
    (by decide)

/-- A block whose reminder was already sent, used as the C7 failing input. -/
def sentBlockBeforeUpdate : QuietBlock :=
  { id := 31
    supabaseUserId := 7
    title := "Deep work"
    startTime := 100 * 60 * 1000
    endTime := 200 * 60 * 1000
    status := .scheduled
    reminderConfig := some
      { enabled := true, minutesBefore := some 15, emailEnabled := true,
        pushEnabled := false }
    reminderSent := true
    reminderScheduledAt := some (85 * 60 * 1000)
    isDeleted := false
    user := none }

/-- An update that changes only the start and end times, with no
`reminderConfig` in the payload. -/
def startTimeOnlyUpdate : UpdateQuietBlockInput :=
  { title := none
    startTime := some (300 * 60 * 1000)
    endTime := some (400 * 60 * 1000)
    status := none
    reminderConfig := none }

/-- C7 (code-bug evidence): an explicit update that changes the start time
but carries no `reminderConfig.minutesBefore` moves the block but leaves
`reminderScheduledAt` and `reminderSent` completely untouched — against the
claim (and the code's own comment, "Recalculate reminder time if reminder
config or start time changed") — while an update that does carry
`minutesBefore` recomputes from the new start time and resets the flag. -/
theorem updateQuietBlock_reminder_reset_bug :
    (updateQuietBlock sentBlockBeforeUpdate startTimeOnlyUpdate).startTime =
      300 * 60 * 1000 ∧
    (updateQuietBlock sentBlockBeforeUpdate startTimeOnlyUpdate).reminderSent =
      true ∧
    (updateQuietBlock sentBlockBeforeUpdate
      startTimeOnlyUpdate).reminderScheduledAt = some (85 * 60 * 1000) ∧
    (updateQuietBlock sentBlockBeforeUpdate
      { startTimeOnlyUpdate with
        reminderConfig := some { minutesBefore := some 15 } }).reminderSent =
      false ∧
    (updateQuietBlock sentBlockBeforeUpdate
      { startTimeOnlyUpdate with
        reminderConfig := some { minutesBefore := some 15 } }).reminderScheduledAt =
      some (285 * 60 * 1000) := by
  decide

/-- C9: a candidate whose start and end fall on different local calendar
dates is rejected by the client-side validation in the distinct
cross-midnight branch before the request is made, so the server-side
overlap check (`checkQuietBlockOverlap` in `POST /api/quiet-blocks`) never
runs for it; when the earlier checks pass, the result is exactly the
cross-midnight rejection. -/
theorem crossesMidnight_spec (now : Int) (s e : JsDate)
    (hdiff : localDate s ≠ localDate e) :
    (∀ existing : List QuietBlock,
      clientCreateFlowOverlapCheck now s e existing = none) ∧
    (s.valid = true → e.valid = true → s.epochMs < e.epochMs →
      now + 60000 ≤ e.epochMs →
      handleFormSubmit now s e = .crossesMidnight) := by
  have hnotsub : ∀ d hm1 hm2, handleFormSubmit now s e ≠ .submitted d hm1 hm2 := by
    intro d hm1 hm2
    unfold handleFormSubmit
    split_ifs with h1 h2 h3 h4 <;> simp_all
  constructor
  · intro existing
    unfold clientCreateFlowOverlapCheck
    cases hr : handleFormSubmit now s e with
    | submitted d hm1 hm2 => exact absurd hr (hnotsub d hm1 hm2)
    | invalidDates => rfl
    | endNotAfterStart => rfl
    | endTooSoon => rfl
    | crossesMidnight => rfl
  · intro hv1 hv2 hlt hfut
    unfold handleFormSubmit
    rw [if_neg (by simp [hv1, hv2]), if_neg (by omega), if_neg (by omega),
      if_pos hdiff]

/-- A form start instant late on one local calendar day. -/
def lateNightStart : JsDate :=
  { epochMs := 0, year := 2025, month0 := 0, day := 1, hours := 23,
    minutes := 0, valid := true }

/-- A form end instant on the following local calendar day. -/
def afterMidnightEnd : JsDate :=
  { epochMs := 7200000, year := 2025, month0 := 0, day := 2, hours := 1,
    minutes := 0, valid := true }

/-- Witness for C9: an otherwise-valid block crossing local midnight is
rejected with the cross-midnight branch. -/
theorem crossesMidnight_spec_witness :
    handleFormSubmit 0 lateNightStart afterMidnightEnd = .crossesMidnight :=
  (crossesMidnight_spec 0 lateNightStart afterMidnightEnd (by decide)).2
    rfl rfl (by decide) (by decide)

/-- C10: when creation supplies no reminder computation — `reminderConfig`
absent, `enabled` false, or `minutesBefore` absent, since the service
computes `reminderScheduledAt` only when `enabled` and `minutesBefore` are
both truthy — the pre-save hook silently defaults `reminderScheduledAt` to
`startTime` minus 15 minutes, so even blocks created with reminders
disabled carry a reminder timestamp. -/
theorem preSave_default_reminder_spec (blockData : CreateQuietBlockData)
    (h : blockData.reminderConfig = none ∨
      ∃ c, blockData.reminderConfig = some c ∧
        (c.enabled = false ∨ c.minutesBefore = none)) :
    savedReminderScheduledAt blockData =
      some (blockData.startTime - 15 * 60 * 1000) := by
  have hnone : createReminderScheduledAt blockData = none := by
    rcases h with h | ⟨c, hc, hd⟩
    · simp [createReminderScheduledAt, h]
    · rcases hd with hd | hd
      · cases hm : c.minutesBefore <;>
          simp [createReminderScheduledAt, hc, hd, hm]
      · simp [createReminderScheduledAt, hc, hd]
  simp [savedReminderScheduledAt, preSaveReminderScheduledAt, hnone]

/-- Witness for C10: a block created with reminders disabled still gets a
default reminder timestamp 15 minutes before start. -/
theorem preSave_default_reminder_spec_witness :
    savedReminderScheduledAt
      { startTime := 3600000, endTime := 7200000,
        reminderConfig := some
          { enabled := false, minutesBefore := some 30, emailEnabled := false,
            pushEnabled := false } } = some (3600000 - 15 * 60 * 1000) :=
  preSave_default_reminder_spec
    { startTime := 3600000, endTime := 7200000,
      reminderConfig := some
        { enabled := false, minutesBefore := some 30, emailEnabled := false,
          pushEnabled := false } }
    (Or.inr ⟨_, rfl, Or.inl rfl⟩)

end QuietScheduler
